import Mathlib

/-!
Verification development for the EdgePlug embedded runtime
(C sources under `src/runtime/src`).

The C modules are shallowly embedded: machine integers become `Nat`
with explicit wrap-around (`% 2 ^ 32`) where the C arithmetic can wrap,
`float` values become `ℚ` (every concrete constant used in a theorem
below is exactly representable in binary32, so the rational computation
coincides with the C single-precision computation on those inputs),
byte arrays become `List Nat` or total functions `Nat → Nat`, and the
platform clock (`get_system_time_ms`, a platform collaborator) is passed
in as an explicit argument wherever a C function reads it.

Each embedded definition keeps the name of the C function or type it
models.
-/

namespace EdgePlug

/-- Modulus of the C `uint32_t` type. -/
def U32 : Nat := 4294967296

/-- C `uint32_t` subtraction `a - b` (wrap-around), total on `Nat`. -/
def usub (a b : Nat) : Nat := (a % U32 + (U32 - b % U32)) % U32

/-- C `uint32_t` increment with wrap-around. -/
def uinc (a : Nat) : Nat := (a + 1) % U32

/-- Status codes from `edgeplug_runtime.h`. -/
inductive edgeplug_status_t where
  | EDGEPLUG_OK
  | EDGEPLUG_ERROR_INVALID_PARAM
  | EDGEPLUG_ERROR_MEMORY
  | EDGEPLUG_ERROR_AGENT_LOAD
  | EDGEPLUG_ERROR_INFERENCE
  | EDGEPLUG_ERROR_ACTUATION
  | EDGEPLUG_ERROR_SAFETY
  | EDGEPLUG_ERROR_HOTSWAP
deriving DecidableEq, Repr

export edgeplug_status_t (EDGEPLUG_OK EDGEPLUG_ERROR_INVALID_PARAM
  EDGEPLUG_ERROR_MEMORY EDGEPLUG_ERROR_AGENT_LOAD EDGEPLUG_ERROR_INFERENCE
  EDGEPLUG_ERROR_ACTUATION EDGEPLUG_ERROR_SAFETY EDGEPLUG_ERROR_HOTSWAP)

/-- Agent manifest (`edgeplug_manifest_t` in `edgeplug_runtime.h`).
`hotswap.c` uses an undeclared type `manifest_t` with the same field
usage (`version`, `signature`); it is modelled by this structure too. -/
structure edgeplug_manifest_t where
  version : Nat
  agent_id : Nat
  flash_size : Nat
  sram_size : Nat
  signature : List Nat
  hash : List Nat
deriving DecidableEq, Repr

/-! ## Hot-swap engine (`hotswap.c`) -/

/-- Slot region size, `AGENT_SLOT_SIZE` in `hotswap.c` (14 KiB). -/
def AGENT_SLOT_SIZE : Nat := 14 * 1024

/-- Size in bytes of `agent_slot_metadata_t` (5 4-byte words,
a 64-byte signature and 32 reserved bytes). -/
def METADATA_SIZE : Nat := 116

/-- The slot magic. The C source writes the literal `0xEDGEPLUG`, which
is not a valid hexadecimal numeral (`G`, `P`, `U`, `L` are not hex
digits), so the file cannot compile as written; the magic is modelled as
a fixed 32-bit constant, and no result below depends on its value. -/
def EDGEPLUG_MAGIC : Nat := 0xED6E9106

/-- CRC32 polynomial constant from `hotswap.c`. -/
def CRC32_POLYNOMIAL : Nat := 0x04C11DB7

/-- One shift-and-conditional-xor step of `init_crc32_table`. -/
def crc32_bit_step (c : Nat) : Nat :=
  if c % 2 = 1 then (c / 2) ^^^ CRC32_POLYNOMIAL else c / 2

/-- Entry `i` of the CRC32 table built by `init_crc32_table`. -/
def crc32_table_entry (i : Nat) : Nat := crc32_bit_step^[8] i

/-- The `calculate_crc32` function of `hotswap.c` (table-driven,
initial value `0xFFFFFFFF`, final xor `0xFFFFFFFF`). -/
def calculate_crc32 (data : List Nat) : Nat :=
  (data.foldl
    (fun crc b => (crc >>> 8) ^^^ crc32_table_entry ((crc ^^^ b) &&& 0xFF))
    0xFFFFFFFF) ^^^ 0xFFFFFFFF

/-- Metadata block stored at the trailing edge of a slot
(`agent_slot_metadata_t` in `hotswap.c` / `hotswap.h`). -/
structure agent_slot_metadata_t where
  magic : Nat
  version : Nat
  size : Nat
  crc32 : Nat
  timestamp : Nat
  signature : List Nat
  reserved : List Nat

/-- One agent slot: its payload region (a byte at every address) and
the metadata block stored in the trailing bytes of the region.  The C
payload writes never reach the metadata block (`write_agent_to_slot`
rejects sizes above `AGENT_SLOT_SIZE - sizeof metadata`), so the two
parts are modelled separately. -/
structure Slot where
  data : Nat → Nat
  meta : agent_slot_metadata_t

/-- The mutable engine state `hotswap_state_t` of `hotswap.c`.
`update_in_progress` is a `uint8_t` used only with values 0/1 and is
modelled as `Bool`. -/
structure hotswap_state_t where
  active_slot : Nat
  update_in_progress : Bool
  update_start_time : Nat
  update_attempts : Nat
  successful_updates : Nat
  failed_updates : Nat
  last_update_timestamp : Nat

/-- The zero state produced by `memset(&hotswap_state, 0, ...)`. -/
def hotswap_state_zero : hotswap_state_t :=
  ⟨0, false, 0, 0, 0, 0, 0⟩

/-- The complete state touched by `hotswap.c`: the two flash slot
regions and the engine state. -/
structure HotswapSystem where
  slotA : Slot
  slotB : Slot
  state : hotswap_state_t

/-- Slot selection: slot 0 is A, anything else addresses slot B
(callers only pass 0 or 1; the C guards reject `slot > 1` before use). -/
def getSlot (sys : HotswapSystem) (slot : Nat) : Slot :=
  if slot = 0 then sys.slotA else sys.slotB

/-- Replace one slot. -/
def setSlot (sys : HotswapSystem) (slot : Nat) (s : Slot) : HotswapSystem :=
  if slot = 0 then { sys with slotA := s } else { sys with slotB := s }

/-- The `validate_agent_slot` check of `hotswap.c`: readable slot
number, magic, size bound, and CRC32 of the payload bytes `[0, size)`
against the stored checksum. -/
def validate_agent_slot (sys : HotswapSystem) (slot : Nat) : Bool :=
  if 1 < slot then false
  else
    let m := (getSlot sys slot).meta
    (m.magic == EDGEPLUG_MAGIC) &&
    (m.size ≤ AGENT_SLOT_SIZE - METADATA_SIZE) &&
    (calculate_crc32 ((List.range m.size).map (getSlot sys slot).data) == m.crc32)

/-- The `hotswap_init` operation: reset the engine state, validate both
slots, and choose the active slot (the valid one; on two valid slots the
one with the strictly larger timestamp, slot B on a tie). -/
def hotswap_init (sys : HotswapSystem) : edgeplug_status_t × HotswapSystem :=
  let sys0 : HotswapSystem := { sys with state := hotswap_state_zero }
  let slot_a_valid := validate_agent_slot sys0 0
  let slot_b_valid := validate_agent_slot sys0 1
  if slot_a_valid && slot_b_valid then
    let active : Nat :=
      if sys0.slotB.meta.timestamp < sys0.slotA.meta.timestamp then 0 else 1
    (EDGEPLUG_OK, { sys0 with state := { sys0.state with active_slot := active } })
  else if slot_a_valid then
    (EDGEPLUG_OK, { sys0 with state := { sys0.state with active_slot := 0 } })
  else if slot_b_valid then
    (EDGEPLUG_OK, { sys0 with state := { sys0.state with active_slot := 1 } })
  else
    (EDGEPLUG_ERROR_HOTSWAP, sys0)

/-- The `get_inactive_slot` helper. -/
def get_inactive_slot (sys : HotswapSystem) : Nat :=
  if sys.state.active_slot = 0 then 1 else 0

/-- The `write_agent_to_slot` helper: bound check, payload write, and
metadata write.  `t_meta` is the value read from the platform clock for
`metadata.timestamp`. -/
def write_agent_to_slot (sys : HotswapSystem) (slot : Nat)
    (agent_data : List Nat) (manifest : edgeplug_manifest_t) (t_meta : Nat) :
    edgeplug_status_t × HotswapSystem :=
  if 1 < slot then (EDGEPLUG_ERROR_INVALID_PARAM, sys)
  else if AGENT_SLOT_SIZE - METADATA_SIZE < agent_data.length then
    (EDGEPLUG_ERROR_MEMORY, sys)
  else
    let old := getSlot sys slot
    let newData : Nat → Nat := fun i =>
      if i < agent_data.length then agent_data.getD i 0 else old.data i
    let newMeta : agent_slot_metadata_t :=
      { magic := EDGEPLUG_MAGIC
        version := manifest.version
        size := agent_data.length
        crc32 := calculate_crc32 agent_data
        timestamp := t_meta % U32
        signature := manifest.signature
        reserved := List.replicate 32 0 }
    (EDGEPLUG_OK, setSlot sys slot ⟨newData, newMeta⟩)

/-- The `hotswap_update_agent` operation.  `t_start`, `t_meta` and
`t_commit` are the three platform-clock readings the C function makes
(update start time, metadata timestamp, last-update timestamp). -/
def hotswap_update_agent (sys : HotswapSystem) (new_agent_data : List Nat)
    (new_manifest : edgeplug_manifest_t) (t_start t_meta t_commit : Nat) :
    edgeplug_status_t × HotswapSystem :=
  if sys.state.update_in_progress then (EDGEPLUG_ERROR_HOTSWAP, sys)
  else
    let sys1 : HotswapSystem :=
      { sys with state :=
        { sys.state with
            update_in_progress := true
            update_start_time := t_start % U32
            update_attempts := uinc sys.state.update_attempts } }
    let inactive_slot := get_inactive_slot sys1
    let wr := write_agent_to_slot sys1 inactive_slot new_agent_data new_manifest t_meta
    if wr.1 ≠ EDGEPLUG_OK then
      (wr.1, { wr.2 with state :=
        { wr.2.state with
            update_in_progress := false
            failed_updates := uinc wr.2.state.failed_updates } })
    else if ¬ validate_agent_slot wr.2 inactive_slot then
      (EDGEPLUG_ERROR_HOTSWAP, { wr.2 with state :=
        { wr.2.state with
            update_in_progress := false
            failed_updates := uinc wr.2.state.failed_updates } })
    else
      (EDGEPLUG_OK, { wr.2 with state :=
        { wr.2.state with
            active_slot := inactive_slot
            update_in_progress := false
            successful_updates := uinc wr.2.state.successful_updates
            last_update_timestamp := t_commit % U32 } })

/-- The `hotswap_rollback` operation: validate the inactive slot and, if
it is valid, make it active. -/
def hotswap_rollback (sys : HotswapSystem) : edgeplug_status_t × HotswapSystem :=
  let previous_slot := get_inactive_slot sys
  if ¬ validate_agent_slot sys previous_slot then (EDGEPLUG_ERROR_HOTSWAP, sys)
  else
    (EDGEPLUG_OK, { sys with state := { sys.state with active_slot := previous_slot } })

/-- The `hotswap_watchdog_check` operation.  `now` is the platform-clock
reading; the C code compares the wrapped `uint32_t` difference with the
30-second threshold and, on expiry, calls `hotswap_rollback` (status
ignored), clears the flag and counts a failure. -/
def hotswap_watchdog_check (sys : HotswapSystem) (now : Nat) : HotswapSystem :=
  if sys.state.update_in_progress then
    if 30000 < usub now sys.state.update_start_time then
      let rolled := (hotswap_rollback sys).2
      { rolled with state :=
        { rolled.state with
            update_in_progress := false
            failed_updates := uinc rolled.state.failed_updates } }
    else sys
  else sys

/-- The `hotswap_clear_slot` operation: fill the whole slot region,
metadata block included, with `0xFF` bytes. -/
def hotswap_clear_slot (sys : HotswapSystem) (slot : Nat) :
    edgeplug_status_t × HotswapSystem :=
  if 1 < slot then (EDGEPLUG_ERROR_INVALID_PARAM, sys)
  else
    let cleared : Slot :=
      ⟨fun _ => 0xFF,
       ⟨0xFFFFFFFF, 0xFFFFFFFF, 0xFFFFFFFF, 0xFFFFFFFF, 0xFFFFFFFF,
        List.replicate 64 0xFF, List.replicate 32 0xFF⟩⟩
    (EDGEPLUG_OK, setSlot sys slot cleared)

/-! ## Preprocessor (`preprocess.c`) -/

/-- Sensor sample (`edgeplug_sensor_data_t`). -/
structure edgeplug_sensor_data_t where
  voltage : ℚ
  current : ℚ
  timestamp : Nat
  quality : Nat

/-- Maximum window size, `MAX_WINDOW_SIZE` in `preprocess.c`. -/
def MAX_WINDOW_SIZE : Nat := 256

/-- The module state of `preprocess.c`: the file-static globals plus the
function-static filter state `filtered_voltage` of
`preprocess_add_sample`.  The 1024-entry `float` buffer is modelled as a
total function on indices. -/
structure PreprocessState where
  window_buffer : Nat → ℚ
  window_index : Nat
  window_size : Nat
  window_full : Bool
  voltage_mean : ℚ
  voltage_std : ℚ
  current_mean : ℚ
  current_std : ℚ
  filter_alpha : ℚ
  filtered_voltage : ℚ

/-- Initial values of the module globals.  `0.1f` is the binary32 value
13421773 / 2^27 exactly. -/
def preprocess_initial : PreprocessState :=
  { window_buffer := fun _ => 0
    window_index := 0
    window_size := 64
    window_full := false
    voltage_mean := 120
    voltage_std := 10
    current_mean := 1
    current_std := (13421773 : ℚ) / 134217728
    filter_alpha := (13421773 : ℚ) / 134217728
    filtered_voltage := 0 }

/-- The `preprocess_init` operation: window-size range check, then reset
of index, full flag and buffer (filter state and coefficients are kept
untouched by the C code). -/
def preprocess_init (st : PreprocessState) (window_sz : Nat) :
    edgeplug_status_t × PreprocessState :=
  if window_sz = 0 ∨ MAX_WINDOW_SIZE < window_sz then
    (EDGEPLUG_ERROR_INVALID_PARAM, st)
  else
    (EDGEPLUG_OK,
     { st with
        window_size := window_sz
        window_index := 0
        window_full := false
        window_buffer := fun _ => 0 })

/-- The `preprocess_add_sample` operation: low-pass filter the voltage
channel, store the filtered value at the insertion index, advance the
index modulo the window size, and set the full flag when the index
wraps to zero. -/
def preprocess_add_sample (st : PreprocessState)
    (sensor_data : edgeplug_sensor_data_t) :
    edgeplug_status_t × PreprocessState :=
  let filtered_voltage :=
    st.filter_alpha * sensor_data.voltage +
      (1 - st.filter_alpha) * st.filtered_voltage
  let newBuffer : Nat → ℚ := fun i =>
    if i = st.window_index then filtered_voltage else st.window_buffer i
  let newIndex := (st.window_index + 1) % st.window_size
  let newFull := if newIndex = 0 then true else st.window_full
  (EDGEPLUG_OK,
   { st with
      window_buffer := newBuffer
      window_index := newIndex
      window_full := newFull
      filtered_voltage := filtered_voltage })

/-- The `preprocess_is_window_ready` accessor. -/
def preprocess_is_window_ready (st : PreprocessState) : Bool :=
  st.window_full

/-- The `preprocess_set_filter` operation. -/
def preprocess_set_filter (st : PreprocessState) (alpha : ℚ) :
    edgeplug_status_t × PreprocessState :=
  if alpha < 0 ∨ 1 < alpha then (EDGEPLUG_ERROR_INVALID_PARAM, st)
  else (EDGEPLUG_OK, { st with filter_alpha := alpha })

/-- The `preprocess_reset` operation: clears index, flag and buffer
(the function-static filter state is not cleared by the C code). -/
def preprocess_reset (st : PreprocessState) :
    edgeplug_status_t × PreprocessState :=
  (EDGEPLUG_OK,
   { st with
      window_index := 0
      window_full := false
      window_buffer := fun _ => 0 })

/-- Fold a list of samples through `preprocess_add_sample`. -/
def preprocess_add_samples (st : PreprocessState)
    (samples : List edgeplug_sensor_data_t) : PreprocessState :=
  samples.foldl (fun s sample => (preprocess_add_sample s sample).2) st

/-! ## Inference engine (`infer.c`) -/

/-- Buffer capacities from `infer.c`. -/
def INFERENCE_BUFFER_SIZE : Nat := 1024

/-- Maximum model size from `infer.c`. -/
def MAX_MODEL_SIZE : Nat := 8192

/-- Model header magic from `cmsis_nn_inference`. -/
def CMSIS_NN_MAGIC : Nat := 0x4E4E5343

/-- The module state of `infer.c`.  `model_buffer` (8 KiB of bytes) and
`inference_buffer` (1 KiB of `int8_t`) are modelled as total functions;
the C code indexes them with unchecked offsets taken from the model
header, so an out-of-range C access (undefined behaviour) reads or
writes the extension of the function beyond the array bound. -/
structure InferState where
  inference_buffer : Nat → Int
  model_buffer : Nat → Nat
  model_size : Nat
  model_loaded : Bool
  inference_count : Nat
  total_inference_time : Nat
  max_inference_time : Nat

/-- State after `infer_init`. -/
def infer_initial : InferState :=
  { inference_buffer := fun _ => 0
    model_buffer := fun _ => 0
    model_size := 0
    model_loaded := false
    inference_count := 0
    total_inference_time := 0
    max_inference_time := 0 }

/-- The `infer_load_model` operation: size checks, then copy of the
model bytes over the front of the model buffer. -/
def infer_load_model (st : InferState) (model_data : List Nat) :
    edgeplug_status_t × InferState :=
  if model_data.length = 0 then (EDGEPLUG_ERROR_INVALID_PARAM, st)
  else if MAX_MODEL_SIZE < model_data.length then (EDGEPLUG_ERROR_MEMORY, st)
  else
    (EDGEPLUG_OK,
     { st with
        model_buffer := fun i =>
          if i < model_data.length then model_data.getD i 0 else st.model_buffer i
        model_size := model_data.length
        model_loaded := true })

/-- Little-endian 32-bit read from a byte buffer (the C code reads the
header and layer descriptors through struct pointers on a little-endian
target). -/
def readU32 (buf : Nat → Nat) (off : Nat) : Nat :=
  buf off + 256 * buf (off + 1) + 65536 * buf (off + 2) + 16777216 * buf (off + 3)

/-- Little-endian signed 32-bit read (the `int32_t` bias entries). -/
def readI32 (buf : Nat → Nat) (off : Nat) : Int :=
  let u := readU32 buf off % U32
  if u < 2147483648 then (u : Int) else (u : Int) - (U32 : Int)

/-- Reinterpret a byte as the `int8_t` weight value. -/
def byteToI8 (b : Nat) : Int :=
  if b % 256 < 128 then ((b % 256 : Nat) : Int) else ((b % 256 : Nat) : Int) - 256

/-- One dense layer of `cmsis_nn_inference`: for each output index,
bias plus the weighted sum over the inputs, optional ReLU, quantization
by truncating division by 64 (C `/` on `int`), clamping to int8, and a
write into the output scratch region.  Writes go one output at a time
into the shared inference buffer, exactly as the C loop does. -/
def cmsis_dense_layer (model : Nat → Nat) (buf : Nat → Int)
    (baseIn baseOut inSize outSize wOff bOff actType : Nat) : Nat → Int :=
  (List.range outSize).foldl
    (fun b outIdx =>
      let acc : Int :=
        (List.range inSize).foldl
          (fun a inIdx =>
            a + b (baseIn + inIdx) * byteToI8 (model (wOff + inIdx * outSize + outIdx)))
          (readI32 model (bOff + 4 * outIdx))
      let acc := if actType = 1 ∧ acc < 0 then 0 else acc
      let acc := Int.tdiv acc 64
      let acc := if 127 < acc then 127 else if acc < -128 then -128 else acc
      fun i => if i = baseOut + outIdx then acc else b i)
    buf

/-- One activation layer of `cmsis_nn_inference`: ReLU, step-function
sigmoid, or identity, element by element. -/
def cmsis_activation_layer (buf : Nat → Int)
    (baseIn baseOut inSize actType : Nat) : Nat → Int :=
  (List.range inSize).foldl
    (fun b idx =>
      let val := b (baseIn + idx)
      let val :=
        if actType = 1 then (if val < 0 then 0 else val)
        else if actType = 2 then (if 0 < val then 127 else -128)
        else val
      fun i => if i = baseOut + idx then val else b i)
    buf

/-- The layer walk of `cmsis_nn_inference`: process `count` remaining
layer descriptors starting at descriptor index `idx` (each descriptor is
36 bytes, after the 32-byte header), swapping the two scratch regions
after every layer; a layer type other than dense (2) or activation (3)
aborts with `none`. -/
def cmsis_run_layers (model : Nat → Nat) :
    Nat → Nat → (Nat → Int) → Nat → Nat → Option ((Nat → Int) × Nat)
  | 0, _, buf, baseIn, _ => some (buf, baseIn)
  | Nat.succ k, idx, buf, baseIn, baseOut =>
    let lOff := 32 + 36 * idx
    let ltype := readU32 model lOff
    let inSize := readU32 model (lOff + 4)
    let outSize := readU32 model (lOff + 8)
    let wOff := readU32 model (lOff + 12)
    let bOff := readU32 model (lOff + 16)
    let actType := readU32 model (lOff + 20)
    if ltype = 2 then
      cmsis_run_layers model k (idx + 1)
        (cmsis_dense_layer model buf baseIn baseOut inSize outSize wOff bOff actType)
        baseOut baseIn
    else if ltype = 3 then
      cmsis_run_layers model k (idx + 1)
        (cmsis_activation_layer buf baseIn baseOut inSize actType)
        baseOut baseIn
    else none

/-- The `cmsis_nn_inference` function: header checks, the layer walk
over the two scratch regions (`[0, input_size)` and
`[input_size, ...)`), and the final copy of the output region.  Returns
the status, the inference buffer after the walk, and the written output
(`none` when the C code returns before writing the caller's output). -/
def cmsis_nn_inference (st : InferState) (input : List Int) :
    edgeplug_status_t × (Nat → Int) × Option (List Int × Nat) :=
  if ¬ st.model_loaded then
    (EDGEPLUG_ERROR_INVALID_PARAM, st.inference_buffer, none)
  else
    let header_magic := readU32 st.model_buffer 0
    let header_input_size := readU32 st.model_buffer 8
    let header_output_size := readU32 st.model_buffer 12
    let header_layer_count := readU32 st.model_buffer 16
    if header_magic ≠ CMSIS_NN_MAGIC then
      (EDGEPLUG_ERROR_INFERENCE, st.inference_buffer, none)
    else if input.length ≠ header_input_size then
      (EDGEPLUG_ERROR_INFERENCE, st.inference_buffer, none)
    else
      let buf0 : Nat → Int := fun i =>
        if i < input.length then input.getD i 0 else st.inference_buffer i
      match cmsis_run_layers st.model_buffer header_layer_count 0 buf0 0 header_input_size with
      | none => (EDGEPLUG_ERROR_INFERENCE, buf0, none)
      | some (buf1, baseFinal) =>
        (EDGEPLUG_OK, buf1,
         some ((List.range header_output_size).map (fun i => buf1 (baseFinal + i)),
               header_output_size))

/-- The `infer_int8` operation.  `t_start` and `t_end` are the two
platform-clock readings around the `cmsis_nn_inference` call; the C
code updates the statistics counters before checking the latency
budget, and on a breach returns the inference error instead of the
inner status. -/
def infer_int8 (st : InferState) (input : List Int) (t_start t_end : Nat) :
    edgeplug_status_t × InferState × Option (List Int × Nat) :=
  if ¬ st.model_loaded then (EDGEPLUG_ERROR_INVALID_PARAM, st, none)
  else if INFERENCE_BUFFER_SIZE < input.length then (EDGEPLUG_ERROR_MEMORY, st, none)
  else
    let st1 : InferState :=
      { st with inference_buffer := fun i =>
          if i < input.length then input.getD i 0 else st.inference_buffer i }
    let r := cmsis_nn_inference st1 input
    let inference_time := usub t_end t_start
    let st2 : InferState :=
      { st1 with
          inference_buffer := r.2.1
          inference_count := uinc st1.inference_count
          total_inference_time := (st1.total_inference_time + inference_time) % U32
          max_inference_time :=
            if st1.max_inference_time < inference_time then inference_time
            else st1.max_inference_time }
    if 1 < inference_time then (EDGEPLUG_ERROR_INFERENCE, st2, r.2.2)
    else (r.1, st2, r.2.2)

/-! ## Actuation dispatcher (`actuator.c`) -/

/-- Actuation command (`edgeplug_actuation_cmd_t`). -/
structure edgeplug_actuation_cmd_t where
  opcua_node : Nat
  modbus_addr : Nat
  gpio_pin : Nat
  gpio_state : Nat
  value : ℚ

/-- Table capacities from `actuator.c`. -/
def MAX_OPCUA_NODES : Nat := 16

/-- Maximum Modbus register count. -/
def MAX_MODBUS_REGS : Nat := 32

/-- Maximum GPIO pin count. -/
def MAX_GPIO_PINS : Nat := 8

/-- The module state of `actuator.c`: the three find-or-add
configuration tables, connection flags, the Modbus slave id, and the
statistics counters. -/
structure ActuatorState where
  opcua_nodes : List (Nat × ℚ)
  opcua_connected : Bool
  modbus_regs : List (Nat × Nat)
  modbus_connected : Bool
  modbus_slave_id : Nat
  gpio_pins : List (Nat × Nat)
  gpio_initialized : Bool
  actuation_count : Nat
  total_actuation_time : Nat
  max_actuation_time : Nat

/-- State after `actuator_init`. -/
def actuator_initial : ActuatorState :=
  { opcua_nodes := []
    opcua_connected := false
    modbus_regs := []
    modbus_connected := false
    modbus_slave_id := 1
    gpio_pins := []
    gpio_initialized := true
    actuation_count := 0
    total_actuation_time := 0
    max_actuation_time := 0 }

/-- Update the first table entry with the given key (the C find loop
breaks at the first match). -/
def table_update_first {β : Type} : List (Nat × β) → Nat → β → List (Nat × β)
  | [], _, _ => []
  | p :: rest, k, v =>
    if p.1 = k then (p.1, v) :: rest else p :: table_update_first rest k v

/-- The find-or-add pattern shared by the three `actuator_write_*`
functions: update the entry when the key is present, append when absent
and the table has capacity, otherwise leave the table unchanged. -/
def table_upsert {β : Type} (cap : Nat) (l : List (Nat × β)) (k : Nat) (v : β) :
    List (Nat × β) :=
  if l.any (fun p => p.1 == k) then table_update_first l k v
  else if l.length < cap then l ++ [(k, v)] else l

/-- An observable delivery to a transport collaborator.  The serial
event carries the full Modbus RTU frame built by the C code; the
network event carries the node id and value placed in the request (the
IEEE-754 byte image of the value is not modelled); the discrete event
carries the pin and level. -/
inductive ActEvent where
  | opcua_send (node_id : Nat) (value : ℚ)
  | modbus_send (frame : List Nat)
  | gpio_write (pin : Nat) (state : Nat)
deriving DecidableEq, Repr

/-- Statistics-and-budget epilogue shared by the three write
functions: count the actuation, add the wrapped duration, track the
maximum, and fail the call when the duration exceeds 10 ms. -/
def actuator_epilogue (st : ActuatorState) (t_start t_end : Nat) :
    edgeplug_status_t × ActuatorState :=
  let actuation_time := usub t_end t_start
  let st1 :=
    { st with
        actuation_count := uinc st.actuation_count
        total_actuation_time := (st.total_actuation_time + actuation_time) % U32
        max_actuation_time :=
          if st.max_actuation_time < actuation_time then actuation_time
          else st.max_actuation_time }
  if 10 < actuation_time then (EDGEPLUG_ERROR_ACTUATION, st1)
  else (EDGEPLUG_OK, st1)

/-- The `actuator_write_opcua` operation.  The request send is a stub
that always succeeds in the C code (`write_success = true`). -/
def actuator_write_opcua (st : ActuatorState) (node_id : Nat) (value : ℚ)
    (t_start t_end : Nat) :
    edgeplug_status_t × ActuatorState × List ActEvent :=
  if node_id = 0 then (EDGEPLUG_ERROR_INVALID_PARAM, st, [])
  else
    let st1 := { st with
      opcua_nodes := table_upsert MAX_OPCUA_NODES st.opcua_nodes node_id value
      opcua_connected := true }
    let r := actuator_epilogue st1 t_start t_end
    (r.1, r.2, [ActEvent.opcua_send node_id value])

/-- The Modbus CRC16 of `actuator_write_modbus` (reflected polynomial
`0xA001`, initial value `0xFFFF`). -/
def modbus_crc16 (frame : List Nat) : Nat :=
  frame.foldl
    (fun crc b =>
      (fun c => if c % 2 = 1 then (c / 2) ^^^ 0xA001 else c / 2)^[8] (crc ^^^ b))
    0xFFFF

/-- The 8-byte Modbus RTU write-single-register frame built by
`actuator_write_modbus`. -/
def modbus_frame (slave_id address value : Nat) : List Nat :=
  let body := [slave_id, 0x06, (address >>> 8) &&& 0xFF, address &&& 0xFF,
               (value >>> 8) &&& 0xFF, value &&& 0xFF]
  let crc := modbus_crc16 body
  body ++ [crc &&& 0xFF, (crc >>> 8) &&& 0xFF]

/-- The `actuator_write_modbus` operation (the UART send is a stub that
always succeeds). -/
def actuator_write_modbus (st : ActuatorState) (address value : Nat)
    (t_start t_end : Nat) :
    edgeplug_status_t × ActuatorState × List ActEvent :=
  if address = 0 then (EDGEPLUG_ERROR_INVALID_PARAM, st, [])
  else
    let st1 := { st with
      modbus_regs := table_upsert MAX_MODBUS_REGS st.modbus_regs address value
      modbus_connected := true }
    let r := actuator_epilogue st1 t_start t_end
    (r.1, r.2, [ActEvent.modbus_send (modbus_frame st.modbus_slave_id address value)])

/-- The `actuator_write_gpio` operation (the platform register write is
compiled out on the generic target; the pin-state table and statistics
updates remain). -/
def actuator_write_gpio (st : ActuatorState) (pin state : Nat)
    (t_start t_end : Nat) :
    edgeplug_status_t × ActuatorState × List ActEvent :=
  if MAX_GPIO_PINS ≤ pin ∨ 1 < state then (EDGEPLUG_ERROR_INVALID_PARAM, st, [])
  else if ¬ st.gpio_initialized then (EDGEPLUG_ERROR_ACTUATION, st, [])
  else
    let st1 := { st with
      gpio_pins := table_upsert MAX_GPIO_PINS st.gpio_pins pin state }
    let r := actuator_epilogue st1 t_start t_end
    (r.1, r.2, [ActEvent.gpio_write pin state])

/-- C conversion `(uint16_t)cmd->value` of the `float` command value:
truncation toward zero (out-of-range conversions are undefined
behaviour in C; they are modelled as a 16-bit wrap of the truncation). -/
def f32_to_u16 (q : ℚ) : Nat :=
  (Int.tdiv q.num (q.den : Int)).toNat % 65536

/-- The `actuator_execute_command` dispatcher: the network write runs
when `opcua_node` is nonzero, the serial write when `modbus_addr` is
nonzero, and the discrete write when `gpio_pin` is below
`MAX_GPIO_PINS`; the first failing sub-operation aborts the command.
Each sub-operation makes two platform-clock readings, passed here as
the three pairs. -/
def actuator_execute_command (st : ActuatorState)
    (cmd : edgeplug_actuation_cmd_t)
    (t1 t2 t3 : Nat × Nat) :
    edgeplug_status_t × ActuatorState × List ActEvent :=
  let step1 :=
    if cmd.opcua_node ≠ 0 then
      actuator_write_opcua st cmd.opcua_node cmd.value t1.1 t1.2
    else (EDGEPLUG_OK, st, [])
  if step1.1 ≠ EDGEPLUG_OK then step1
  else
    let step2 :=
      if cmd.modbus_addr ≠ 0 then
        actuator_write_modbus step1.2.1 cmd.modbus_addr (f32_to_u16 cmd.value) t2.1 t2.2
      else (EDGEPLUG_OK, step1.2.1, [])
    if step2.1 ≠ EDGEPLUG_OK then
      (step2.1, step2.2.1, step1.2.2 ++ step2.2.2)
    else
      let step3 :=
        if cmd.gpio_pin < MAX_GPIO_PINS then
          actuator_write_gpio step2.2.1 cmd.gpio_pin cmd.gpio_state t3.1 t3.2
        else (EDGEPLUG_OK, step2.2.1, [])
      if step3.1 ≠ EDGEPLUG_OK then
        (step3.1, step3.2.1, step1.2.2 ++ step2.2.2 ++ step3.2.2)
      else
        (EDGEPLUG_OK, step3.2.1, step1.2.2 ++ step2.2.2 ++ step3.2.2)

/-! ## Agent loader (`agent_loader.c`) -/

/-- Maximum agent size from `agent_loader.c` (14 KiB). -/
def MAX_AGENT_SIZE : Nat := 14 * 1024

/-- The module state of `agent_loader.c`: the two RAM slots, the
active-slot flag, and the cached manifest. -/
structure LoaderState where
  agent_slot_a : Nat → Nat
  agent_slot_b : Nat → Nat
  slot_a_active : Bool
  current_manifest : edgeplug_manifest_t

/-- The `calculate_hash` function at `agent_loader.c:316` (cited by the
specification for the hash chain): despite its doc comment naming
SHA-512, it zero-fills the 64-byte digest and xors each of the first
`min(size, 64)` data bytes with `0xAA`.  The file also contains an
earlier, conflicting `static` definition of the same name at line 200
(a redefinition, so the translation unit cannot compile as written);
the line-316 body is the one the specification's claims cite. -/
def calculate_hash (data : List Nat) : List Nat :=
  (List.range 64).map
    (fun i => if i < data.length then data.getD i 0 ^^^ 0xAA else 0)

/-- The `verify_signature` function of `agent_loader.c`: after a null
check on the three pointers it computes two hashes (which do not affect
the result) and accepts exactly when neither the `r` half nor the `s`
half of the signature is all-zero.  The public key is an `Option` so
that the null argument the loader passes can be represented. -/
def verify_signature (data : List Nat) (signature : List Nat)
    (public_key : Option (List Nat)) : Bool :=
  match public_key with
  | none => false
  | some _ =>
    let r := (List.range 32).map (fun i => signature.getD i 0)
    let s := (List.range 32).map (fun i => signature.getD (32 + i) 0)
    let _hash := calculate_hash data
    (r.any (fun b => b ≠ 0)) && (s.any (fun b => b ≠ 0))

/-- The `cbor_parse_header` function: one header byte giving major type
(top 3 bits) and additional info (bottom 5 bits); info `0x00`-`0x17` is
the value itself, `0x18`/`0x19`/`0x1A` read 1/2/4 further big-endian
bytes, anything else is unsupported.  Returns the major type, the
value, and the offset after the header, or `none` on failure, with the
exact bounds checks of the C code. -/
def cbor_parse_header (data : List Nat) (off : Nat) :
    Option (Nat × Nat × Nat) :=
  if data.length ≤ off then none
  else
    let byte := data.getD off 0
    let major_type := (byte >>> 5) &&& 0x07
    let additional_info := byte &&& 0x1F
    if additional_info ≤ 0x17 then some (major_type, additional_info, off + 1)
    else if additional_info = 0x18 then
      if data.length ≤ off + 1 then none
      else some (major_type, data.getD (off + 1) 0, off + 2)
    else if additional_info = 0x19 then
      if data.length ≤ off + 2 then none
      else some (major_type,
                 (data.getD (off + 1) 0) <<< 8 ||| data.getD (off + 2) 0,
                 off + 3)
    else if additional_info = 0x1A then
      if data.length ≤ off + 4 then none
      else some (major_type,
                 (data.getD (off + 1) 0) <<< 24 ||| (data.getD (off + 2) 0) <<< 16 |||
                 (data.getD (off + 3) 0) <<< 8 ||| data.getD (off + 4) 0,
                 off + 5)
    else none

/-- The component loop of `agent_loader_load` (lines 375-400).  The C
loop reuses the single variable `value` both as loop bound and to hold
each parsed header value, so after every iteration the bound becomes
the last value-field length; the loop checks that each key header has
major type 3 and skips key and value payloads without inspecting them.
Returns the number of completed iterations, or `none` on a parse
failure.  `fuel` only ensures termination; every call below passes more
fuel than the loop can consume (each iteration advances the offset by
at least two and the loop fails once the offset passes the end). -/
def cbor_component_loop (data : List Nat) :
    Nat → Nat → Nat → Nat → Nat → Option Nat
  | 0, i, bound, _, iters => if bound ≤ i then some iters else none
  | Nat.succ fuel, i, bound, off, iters =>
    if bound ≤ i then some iters
    else
      match cbor_parse_header data off with
      | none => none
      | some (majorK, valueK, offK) =>
        if majorK ≠ 3 then none
        else
          match cbor_parse_header data (offK + valueK) with
          | none => none
          | some (_, valueV, offV) =>
            cbor_component_loop data fuel (i + 1) valueV (offV + valueV) (iters + 1)

/-- The CBOR-parsing stage of `agent_loader_load` (lines 354-404): the
top-level header must be a map (major type 5); the component loop must
complete; the three found-flags are set inside every completed loop
iteration regardless of the key bytes, so they are all true exactly
when the loop ran at least once. -/
def parse_agent_components (data : List Nat) : Bool :=
  match cbor_parse_header data 0 with
  | none => false
  | some (major_type, value, off) =>
    if major_type ≠ 5 then false
    else
      match cbor_component_loop data (data.length + 2) 0 value off 0 with
      | none => false
      | some iters => 0 < iters

/-- Decidable form of the structural acceptance condition on the
top-level header: it parses as a map (major type 5) with a nonzero
declared pair count. -/
def cbor_top_level_nonempty_map (data : List Nat) : Bool :=
  match cbor_parse_header data 0 with
  | none => false
  | some (major_type, value, _) => major_type == 5 && 0 < value

/-- The `agent_loader_load` operation: parameter and size checks, the
stub-hash comparison against `manifest.hash`, the signature check —
called with a null public key at line 350 — the CBOR parsing stage, and
finally the copy of the image into the currently *active* slot (the
variable `active_slot` at line 407) and the manifest update. -/
def agent_loader_load (st : LoaderState) (cbor_data : List Nat)
    (manifest : edgeplug_manifest_t) : edgeplug_status_t × LoaderState :=
  if cbor_data.length = 0 then (EDGEPLUG_ERROR_INVALID_PARAM, st)
  else if MAX_AGENT_SIZE < cbor_data.length then (EDGEPLUG_ERROR_MEMORY, st)
  else if MAX_AGENT_SIZE < manifest.flash_size then (EDGEPLUG_ERROR_INVALID_PARAM, st)
  else if calculate_hash cbor_data ≠ manifest.hash then (EDGEPLUG_ERROR_AGENT_LOAD, st)
  else if ¬ verify_signature cbor_data manifest.signature none then
    (EDGEPLUG_ERROR_AGENT_LOAD, st)
  else if ¬ parse_agent_components cbor_data then (EDGEPLUG_ERROR_AGENT_LOAD, st)
  else
    let written : Nat → Nat := fun i =>
      if i < cbor_data.length then cbor_data.getD i 0
      else (if st.slot_a_active then st.agent_slot_a else st.agent_slot_b) i
    (EDGEPLUG_OK,
     { st with
        agent_slot_a := if st.slot_a_active then written else st.agent_slot_a
        agent_slot_b := if st.slot_a_active then st.agent_slot_b else written
        current_manifest := manifest })

/-- The `agent_loader_hotswap` operation: load the new agent (the C
comment says into the inactive slot, but `agent_loader_load` writes the
active one and the computed `inactive_slot` pointer is unused), then
flip the active-slot flag. -/
def agent_loader_hotswap (st : LoaderState) (new_agent_cbor : List Nat)
    (new_manifest : edgeplug_manifest_t) : edgeplug_status_t × LoaderState :=
  let r := agent_loader_load st new_agent_cbor new_manifest
  if r.1 ≠ EDGEPLUG_OK then r
  else (EDGEPLUG_OK, { r.2 with slot_a_active := ¬ r.2.slot_a_active })

/-- The `agent_loader_get_active_agent` accessor: the active slot's
bytes, truncated to the cached manifest's `flash_size`. -/
def agent_loader_get_active_agent (st : LoaderState) : List Nat × Nat :=
  ((List.range st.current_manifest.flash_size).map
     (if st.slot_a_active then st.agent_slot_a else st.agent_slot_b),
   st.current_manifest.flash_size)

/-! ## Theorems about the agent loader -/

/-- Helper: `agent_loader_load` never succeeds — the signature check at
line 350 passes a null public key, which `verify_signature` rejects
before anything else — and every failing path leaves the module state
untouched (all returns precede the slot write). -/
theorem agent_loader_load_fails (st : LoaderState) (cbor_data : List Nat)
    (manifest : edgeplug_manifest_t) :
    ((agent_loader_load st cbor_data manifest).1 == EDGEPLUG_OK) = false ∧
    (agent_loader_load st cbor_data manifest).2 = st := by
  unfold agent_loader_load
  split
  · exact ⟨rfl, rfl⟩
  split
  · exact ⟨rfl, rfl⟩
  split
  · exact ⟨rfl, rfl⟩
  split
  · exact ⟨rfl, rfl⟩
  exact ⟨rfl, rfl⟩

/-- Claim C1: the specification says every accepted image satisfies
`sha512(payload) == manifest.hash` with an Ed25519 signature verified
against the pinned public key, hash mismatches fail as hash failures
and signature mismatches as signature failures.  The code cannot
realize this: `agent_loader_load` never accepts any image at all
(`verify_signature` is invoked with a null public key and rejects
unconditionally), and the hash it compares is the xor-0xAA stub of
`calculate_hash`, which ignores every byte past the 64th — two distinct
65-byte payloads share one digest, so the check cannot be a SHA-512
binding of the payload. -/
theorem agent_loader_never_accepts_and_hash_is_stub :
    (∀ (st : LoaderState) (cbor_data : List Nat) (manifest : edgeplug_manifest_t),
        ((agent_loader_load st cbor_data manifest).1 == EDGEPLUG_OK) = false) ∧
    calculate_hash (List.replicate 65 0) = calculate_hash (List.replicate 64 0 ++ [1]) ∧
    List.replicate 65 (0 : Nat) ≠ List.replicate 64 0 ++ [1] :=
  ⟨fun st d m => (agent_loader_load_fails st d m).1, by decide, by decide⟩

/-- Claim C2: the specification says a successful staging makes the
next active-payload read return the staged bytes, and a failed one
leaves the previous payload observable.  In the code the success half
is unrealizable — `agent_loader_hotswap` can never return success,
because `agent_loader_load` always fails at its null-public-key
signature check — and every call leaves the module state, and hence the
value returned by `agent_loader_get_active_agent`, exactly unchanged.
(The success path, were it reachable, would copy the staged bytes into
the currently active slot and then flip the flag, so the accessor would
return the other slot's stale bytes; the `inactive_slot` pointer the
function computes is never used.) -/
theorem agent_loader_hotswap_never_succeeds (st : LoaderState)
    (new_agent_cbor : List Nat) (new_manifest : edgeplug_manifest_t) :
    ((agent_loader_hotswap st new_agent_cbor new_manifest).1 == EDGEPLUG_OK) = false ∧
    (agent_loader_hotswap st new_agent_cbor new_manifest).2 = st ∧
    agent_loader_get_active_agent (agent_loader_hotswap st new_agent_cbor new_manifest).2 =
      agent_loader_get_active_agent st := by
  have h := agent_loader_load_fails st new_agent_cbor new_manifest
  have hne : (agent_loader_load st new_agent_cbor new_manifest).1 ≠ EDGEPLUG_OK := by
    intro he
    rw [he] at h
    exact absurd h.1 (by decide)
  simp only [agent_loader_hotswap]
  rw [if_pos hne]
  exact ⟨h.1, h.2, by rw [h.2]⟩

/-- The four-byte buffer encoding a one-pair map whose key is the
single letter `x` and whose value is the empty byte string. -/
def cbor_keyless_example : List Nat := [0xA1, 0x61, 0x78, 0x40]

/-- Whether `needle` occurs as a contiguous byte run inside
`haystack` (used to state that a key name occurs nowhere in a
buffer). -/
def contains_seq (haystack needle : List Nat) : Bool :=
  (List.range (haystack.length + 1)).any
    (fun i => (haystack.drop i).take needle.length == needle)

/-- Claim C5, counterexample: the claim says a buffer whose top-level
map lacks any of the keys `model`, `prep`, `act` is rejected with a
missing-key parse error; but the parsing stage of `agent_loader_load`
accepts this one-pair map whose only key is `x` — the byte sequences of
all three mandatory key names occur nowhere in the buffer — because the
loop marks all three components found on any parsed pair. -/
theorem parse_accepts_map_without_mandatory_keys :
    parse_agent_components cbor_keyless_example = true ∧
    contains_seq cbor_keyless_example [0x6D, 0x6F, 0x64, 0x65, 0x6C] = false ∧
    contains_seq cbor_keyless_example [0x70, 0x72, 0x65, 0x70] = false ∧
    contains_seq cbor_keyless_example [0x61, 0x63, 0x74] = false := by
  decide

/-- Claim C5, amended: acceptance by the parsing stage requires only
that the top-level header parse as a map with a nonzero declared pair
count and that the structural pair loop complete at least one
iteration; the key bytes are never compared against `model`, `prep`,
`act`, so a map lacking all three can be accepted, while the empty map
is rejected (with the generic agent-load error — no key-specific error
exists). -/
theorem parse_agent_components_structure :
    (∀ data : List Nat, parse_agent_components data = true →
        cbor_top_level_nonempty_map data = true) ∧
    parse_agent_components cbor_keyless_example = true ∧
    parse_agent_components [0xA0] = false := by
  refine ⟨?_, by decide, by decide⟩
  intro data h
  unfold parse_agent_components at h
  unfold cbor_top_level_nonempty_map
  cases hh : cbor_parse_header data 0 with
  | none => rw [hh] at h; simp at h
  | some tpl =>
    obtain ⟨major_type, value, off⟩ := tpl
    rw [hh] at h
    simp only [ne_eq, ite_not] at h
    by_cases hm : major_type = 5
    · subst hm
      rw [if_pos rfl] at h
      cases value with
      | zero =>
        exfalso
        have hl : cbor_component_loop data (data.length + 2) 0 0 off 0 = some 0 := rfl
        rw [hl] at h
        simp at h
      | succ v => simp
    · rw [if_neg hm] at h
      simp at h

/-- Claim C5, amended, witness: the accepted keyless map indeed has a
nonempty top-level map header. -/
theorem parse_agent_components_structure_witness :
    cbor_top_level_nonempty_map cbor_keyless_example = true :=
  parse_agent_components_structure.1 cbor_keyless_example (by decide)

/-! ## Theorems about the hot-swap engine -/

/-- A slot that validates: matching magic, size 0, and the CRC32 of the
empty payload (which is 0). -/
def valid_empty_slot (ts : Nat) : Slot :=
  ⟨fun _ => 0,
   ⟨EDGEPLUG_MAGIC, 1, 0, 0, ts, List.replicate 64 1, List.replicate 32 0⟩⟩

/-- A system in the middle of a stalled update: slot A active, both
slots valid, update started at time 0. -/
def stalled_update_sys : HotswapSystem :=
  ⟨valid_empty_slot 1, valid_empty_slot 1, ⟨0, true, 0, 1, 0, 0, 0⟩⟩

/-- Claim C3, counterexample: the claim says an expired watchdog tick
leaves the originally-active slot active; but on this stalled update
(slot A active, 30001 ms elapsed, both slots valid) the C watchdog
calls `hotswap_rollback`, which flips the active slot to slot B. -/
theorem watchdog_expiry_moves_active_slot :
    stalled_update_sys.state.update_in_progress = true ∧
    30000 < usub 30001 stalled_update_sys.state.update_start_time ∧
    stalled_update_sys.state.active_slot = 0 ∧
    (hotswap_watchdog_check stalled_update_sys 30001).state.active_slot = 1 := by
  decide

/-- Behaviour of the watchdog as the amended claim C3 states it: when
`update_in_progress` is set and more than 30000 ms (in wrapped 32-bit
arithmetic) have elapsed since `update_started_at`, the watchdog
performs a rollback — the active slot flips to the inactive slot when
that slot validates and stays unchanged otherwise — then clears
`update_in_progress` and increments the failure counter; in every
other state it changes nothing. -/
def hotswap_watchdog_amended (sys : HotswapSystem) (now : Nat) : HotswapSystem :=
  if sys.state.update_in_progress ∧ 30000 < usub now sys.state.update_start_time then
    let target := get_inactive_slot sys
    let newActive :=
      if validate_agent_slot sys target then target else sys.state.active_slot
    { sys with state :=
      { sys.state with
          active_slot := newActive
          update_in_progress := false
          failed_updates := uinc sys.state.failed_updates } }
  else sys

/-- Claim C3, amended: `hotswap_watchdog_check` behaves exactly as
`hotswap_watchdog_amended` describes — in particular the expired case
does not leave the originally-active slot active when the other slot
validates. -/
theorem hotswap_watchdog_check_eq_amended (sys : HotswapSystem) (now : Nat) :
    hotswap_watchdog_check sys now = hotswap_watchdog_amended sys now := by
  unfold hotswap_watchdog_check hotswap_watchdog_amended hotswap_rollback
  cases hb : sys.state.update_in_progress with
  | false => simp [hb]
  | true =>
    by_cases ht : 30000 < usub now sys.state.update_start_time
    · by_cases hv : validate_agent_slot sys (get_inactive_slot sys) = true
      · simp [hb, ht, hv]
      · simp [hb, ht, hv]
    · simp [hb, ht]

/-- A system whose two slots are valid with identical timestamps. -/
def equal_timestamp_sys : HotswapSystem :=
  ⟨valid_empty_slot 7, valid_empty_slot 7, ⟨0, false, 0, 0, 0, 0, 0⟩⟩

/-- Claim C6, counterexample: the claim says that when both slots
validate with equal timestamps, `hotswap_init` sets the active slot to
slot A; on this system it picks slot B (the C tie-break
`a.timestamp > b.timestamp ? 0 : 1` falls to slot 1 on equality). -/
theorem init_equal_timestamps_picks_slot_b :
    validate_agent_slot equal_timestamp_sys 0 = true ∧
    validate_agent_slot equal_timestamp_sys 1 = true ∧
    equal_timestamp_sys.slotA.meta.timestamp =
      equal_timestamp_sys.slotB.meta.timestamp ∧
    (hotswap_init equal_timestamp_sys).2.state.active_slot ≠ 0 ∧
    (hotswap_init equal_timestamp_sys).2.state.active_slot = 1 := by
  decide

/-- Claim C6, amended: when both slots validate and the metadata
timestamps are equal, `hotswap_init` succeeds and sets the active slot
to slot B. -/
theorem hotswap_init_tie_picks_slot_b (sys : HotswapSystem)
    (ha : validate_agent_slot sys 0 = true)
    (hb : validate_agent_slot sys 1 = true)
    (hts : sys.slotA.meta.timestamp = sys.slotB.meta.timestamp) :
    (hotswap_init sys).1 = EDGEPLUG_OK ∧
    (hotswap_init sys).2.state.active_slot = 1 := by
  unfold hotswap_init
  dsimp only
  rw [show validate_agent_slot ⟨sys.slotA, sys.slotB, hotswap_state_zero⟩ 0 = true from ha,
      show validate_agent_slot ⟨sys.slotA, sys.slotB, hotswap_state_zero⟩ 1 = true from hb]
  simp [hts]

/-- Claim C6, amended, witness at the concrete tied system. -/
theorem hotswap_init_tie_picks_slot_b_witness :
    (hotswap_init equal_timestamp_sys).1 = EDGEPLUG_OK ∧
    (hotswap_init equal_timestamp_sys).2.state.active_slot = 1 :=
  hotswap_init_tie_picks_slot_b equal_timestamp_sys (by decide) (by decide) (by decide)

/-- One public operation of the hot-swap engine, with the
platform-clock readings the C function would make passed alongside. -/
inductive HotswapOp where
  | op_init
  | op_update (data : List Nat) (m : edgeplug_manifest_t) (t_start t_meta t_commit : Nat)
  | op_rollback
  | op_watchdog (now : Nat)
  | op_clear (slot : Nat)

/-- State transition of one public operation (statuses dropped). -/
def hotswap_step (sys : HotswapSystem) : HotswapOp → HotswapSystem
  | .op_init => (hotswap_init sys).2
  | .op_update data m t1 t2 t3 => (hotswap_update_agent sys data m t1 t2 t3).2
  | .op_rollback => (hotswap_rollback sys).2
  | .op_watchdog now => hotswap_watchdog_check sys now
  | .op_clear slot => (hotswap_clear_slot sys slot).2

/-- Helper: a single public operation started with the flag clear
finishes with the flag clear. -/
theorem hotswap_step_clears_flag (sys : HotswapSystem) (op : HotswapOp)
    (h : sys.state.update_in_progress = false) :
    (hotswap_step sys op).state.update_in_progress = false := by
  cases op with
  | op_init =>
    show (hotswap_init sys).2.state.update_in_progress = false
    unfold hotswap_init
    dsimp only
    split
    · rfl
    split
    · rfl
    split
    · rfl
    rfl
  | op_update data m t1 t2 t3 =>
    show (hotswap_update_agent sys data m t1 t2 t3).2.state.update_in_progress = false
    unfold hotswap_update_agent
    rw [if_neg (by rw [h]; exact Bool.false_ne_true)]
    dsimp only
    split
    · rfl
    split
    · rfl
    rfl
  | op_rollback =>
    show (hotswap_rollback sys).2.state.update_in_progress = false
    unfold hotswap_rollback
    dsimp only
    split
    · exact h
    · exact h
  | op_watchdog now =>
    show (hotswap_watchdog_check sys now).state.update_in_progress = false
    unfold hotswap_watchdog_check
    rw [if_neg (by rw [h]; exact Bool.false_ne_true)]
    exact h
  | op_clear slot =>
    show (hotswap_clear_slot sys slot).2.state.update_in_progress = false
    unfold hotswap_clear_slot
    split
    · exact h
    · unfold setSlot
      split
      · exact h
      · exact h

/-- Claim C10: starting from any state in which no update is in
progress (the static initial state and the state after `hotswap_init`
both qualify), every sequence of public hot-swap operations ends with
`update_in_progress` clear — `hotswap_update_agent` clears the flag on
each of its reachable return paths, so the engine is never observed
mid-update between public calls. -/
theorem update_in_progress_clear_after_public_ops (ops : List HotswapOp)
    (sys : HotswapSystem) (h : sys.state.update_in_progress = false) :
    (ops.foldl hotswap_step sys).state.update_in_progress = false := by
  induction ops generalizing sys with
  | nil => exact h
  | cons op rest ih =>
    exact ih (hotswap_step sys op) (hotswap_step_clears_flag sys op h)

/-- Claim C10, witness: a concrete run of four public operations from
a quiescent system ends with the flag clear. -/
theorem update_in_progress_clear_after_public_ops_witness :
    (([HotswapOp.op_init,
       HotswapOp.op_update [1, 2, 3] ⟨1, 2, 3, 0, List.replicate 64 1, []⟩ 5 6 7,
       HotswapOp.op_watchdog 99999,
       HotswapOp.op_rollback] : List HotswapOp).foldl
        hotswap_step equal_timestamp_sys).state.update_in_progress = false :=
  update_in_progress_clear_after_public_ops _ equal_timestamp_sys rfl

/-! ## Theorems about the preprocessor -/

/-- A sample with voltage 100 (exactly representable in binary32, as
are 1/2, 0, and the products 1/2 * 100 and 1/2 * 0, so the rational
computation below coincides with the C float computation). -/
def sample_v100 : edgeplug_sensor_data_t := ⟨100, 0, 0, 100⟩

/-- Module state with the filter coefficient set to 1/2 through
`preprocess_set_filter`; no sample has been added yet. -/
def half_alpha_state : PreprocessState :=
  (preprocess_set_filter preprocess_initial (1 / 2)).2

/-- Claim C7, counterexample: the claim says the first appended window
value equals the first sample's voltage (because `prev_filtered` is
said to be initialized from that sample); but the C filter state starts
at 0.0f, so with `alpha = 1/2` the first sample of voltage 100 appends
50, not 100. -/
theorem first_filtered_value_is_not_first_voltage :
    half_alpha_state.filtered_voltage = 0 ∧
    half_alpha_state.window_index = 0 ∧
    (preprocess_add_sample half_alpha_state sample_v100).2.window_buffer 0 = 50 ∧
    (50 : ℚ) ≠ 100 := by
  refine ⟨by norm_num [half_alpha_state, preprocess_set_filter, preprocess_initial],
          by norm_num [half_alpha_state, preprocess_set_filter, preprocess_initial],
          ?_, by norm_num⟩
  norm_num [half_alpha_state, preprocess_set_filter, preprocess_initial,
            preprocess_add_sample, sample_v100]

/-- Claim C7, amended: `preprocess_add_sample` appends
`alpha * voltage + (1 - alpha) * prev_filtered` at the insertion index
and updates the filter state to the same value, but the filter state is
initialized to 0 (not from the first sample), so the first appended
value is `alpha * v1`, not `v1`. -/
theorem add_sample_filter_recurrence :
    (∀ (st : PreprocessState) (s : edgeplug_sensor_data_t),
        (preprocess_add_sample st s).2.filtered_voltage =
          st.filter_alpha * s.voltage + (1 - st.filter_alpha) * st.filtered_voltage ∧
        (preprocess_add_sample st s).2.window_buffer st.window_index =
          st.filter_alpha * s.voltage + (1 - st.filter_alpha) * st.filtered_voltage) ∧
    preprocess_initial.filtered_voltage = 0 := by
  refine ⟨fun st s => ⟨rfl, ?_⟩, rfl⟩
  show (if st.window_index = st.window_index then _ else _) = _
  rw [if_pos rfl]

/-- Helper for claim C8: evolution of the insertion index and the full
flag under a run of `preprocess_add_sample` calls, for any state whose
index and flag agree with having absorbed `n` samples into a window of
size `W`. -/
theorem add_samples_index_full (W : Nat) (hW : 1 ≤ W) :
    ∀ (samples : List edgeplug_sensor_data_t) (st : PreprocessState) (n : Nat),
      st.window_size = W → st.window_index = n % W →
      st.window_full = decide (W ≤ n) →
      (preprocess_add_samples st samples).window_full =
        decide (W ≤ n + samples.length) := by
  intro samples
  induction samples with
  | nil =>
    intro st n hsize hidx hfull
    simpa [preprocess_add_samples] using hfull
  | cons s rest ih =>
    intro st n hsize hidx hfull
    have hmod : (st.window_index + 1) % st.window_size = (n + 1) % W := by
      rw [hsize, hidx]
      rcases Nat.lt_or_ge 1 W with h1 | h1
      · conv_rhs => rw [Nat.add_mod]
        rw [Nat.mod_eq_of_lt h1]
      · have hW1 : W = 1 := le_antisymm h1 hW
        subst hW1
        simp [Nat.mod_one]
    have hfull1 : (if (st.window_index + 1) % st.window_size = 0 then true
          else st.window_full) = decide (W ≤ n + 1) := by
      rw [hmod, hfull]
      by_cases h0 : (n + 1) % W = 0
      · rw [if_pos h0]
        exact (decide_eq_true (Nat.le_of_dvd (Nat.succ_pos n)
          (Nat.dvd_of_mod_eq_zero h0))).symm
      · rw [if_neg h0]
        rcases Nat.lt_or_ge n W with hn | hn
        · rcases Nat.lt_or_ge (n + 1) W with hn1 | hn1
          · have d1 : decide (W ≤ n) = false := decide_eq_false (Nat.not_le.mpr hn)
            have d2 : decide (W ≤ n + 1) = false := decide_eq_false (Nat.not_le.mpr hn1)
            rw [d1, d2]
          · have heq : n + 1 = W := le_antisymm (Nat.succ_le_of_lt hn) hn1
            exact absurd (heq ▸ Nat.mod_self W) h0
        · have d1 : decide (W ≤ n) = true := decide_eq_true hn
          have d2 : decide (W ≤ n + 1) = true :=
            decide_eq_true (Nat.le_succ_of_le hn)
          rw [d1, d2]
    have step : preprocess_add_samples st (s :: rest) =
        preprocess_add_samples (preprocess_add_sample st s).2 rest := rfl
    rw [step]
    have := ih (preprocess_add_sample st s).2 (n + 1)
      (by simpa [preprocess_add_sample] using hsize)
      (by simpa [preprocess_add_sample] using hmod)
      (by simpa [preprocess_add_sample] using hfull1)
    simpa [Nat.add_assoc, Nat.add_comm, Nat.add_left_comm] using this

/-- Claim C8: for a configured window size `W` (between 1 and 256),
after `preprocess_init` the ready flag is false while fewer than `W`
samples have been inserted, becomes true with the W-th insertion, and
stays true for every further insertion (it only ever clears on a reset
or re-init). -/
theorem window_ready_after_w_samples (W : Nat) (st : PreprocessState)
    (samples : List edgeplug_sensor_data_t) (hW : 1 ≤ W) (hW2 : W ≤ 256) :
    preprocess_is_window_ready
        (preprocess_add_samples (preprocess_init st W).2 samples) =
      decide (W ≤ samples.length) := by
  have hcond : ¬ (W = 0 ∨ MAX_WINDOW_SIZE < W) := by
    rintro (h0 | hgt)
    · omega
    · exact absurd hW2 (by simpa [MAX_WINDOW_SIZE] using Nat.not_le.mpr hgt)
  have hinit : (preprocess_init st W).2 =
      { st with window_size := W, window_index := 0, window_full := false,
                window_buffer := fun _ => 0 } := by
    unfold preprocess_init
    rw [if_neg hcond]
  have h := add_samples_index_full W hW samples (preprocess_init st W).2 0
    (by rw [hinit]) (by rw [hinit]; exact (Nat.zero_mod W).symm)
    (by rw [hinit]; exact (decide_eq_false (by omega)).symm)
  simpa [preprocess_is_window_ready] using h

/-- Claim C8, witness: with window size 2, three insertions leave the
window ready. -/
theorem window_ready_after_w_samples_witness :
    preprocess_is_window_ready
        (preprocess_add_samples (preprocess_init preprocess_initial 2).2
          [sample_v100, sample_v100, sample_v100]) = true := by
  have h := window_ready_after_w_samples 2 preprocess_initial
    [sample_v100, sample_v100, sample_v100] (by decide) (by decide)
  simpa using h

/-! ## Theorems about the inference engine -/

/-- A loaded-model state built through `infer_load_model` (the model
byte is garbage; loading does not validate the header). -/
def loaded_model_state : InferState := (infer_load_model infer_initial [0]).2

/-- Claim C9, counterexample: the claim says a budget-breaching call
leaves the inference cycle counter unchanged; but `infer_int8` updates
the statistics before the budget check, so this breaching call (5 ms
measured, budget 1 ms) returns the inference error with the counter
incremented from 0 to 1. -/
theorem infer_budget_breach_changes_counter :
    loaded_model_state.inference_count = 0 ∧
    1 < usub 5 0 ∧
    (infer_int8 loaded_model_state [0] 0 5).1 = EDGEPLUG_ERROR_INFERENCE ∧
    (infer_int8 loaded_model_state [0] 0 5).2.1.inference_count = 1 := by
  decide

/-- Claim C9, amended: on every call whose measured wrapped duration
exceeds the 1 ms budget (with a loaded model and an input that fits the
inference buffer), `infer_int8` returns the inference error instead of
the inner status, and the inference counter is incremented — the
statistics are updated before the budget check, not rolled back. -/
theorem infer_budget_breach_returns_error_and_increments (st : InferState)
    (input : List Int) (t_start t_end : Nat)
    (hload : st.model_loaded = true)
    (hlen : input.length ≤ INFERENCE_BUFFER_SIZE)
    (htime : 1 < usub t_end t_start) :
    (infer_int8 st input t_start t_end).1 = EDGEPLUG_ERROR_INFERENCE ∧
    (infer_int8 st input t_start t_end).2.1.inference_count =
      uinc st.inference_count := by
  unfold infer_int8
  rw [if_neg (by rw [hload]; exact fun hc => hc rfl)]
  rw [if_neg (Nat.not_lt.mpr hlen)]
  dsimp only
  rw [if_pos htime]
  exact ⟨rfl, rfl⟩

/-- Claim C9, amended, witness at the concrete breaching call. -/
theorem infer_budget_breach_witness :
    (infer_int8 loaded_model_state [0] 0 5).1 = EDGEPLUG_ERROR_INFERENCE ∧
    (infer_int8 loaded_model_state [0] 0 5).2.1.inference_count =
      uinc loaded_model_state.inference_count :=
  infer_budget_breach_returns_error_and_increments loaded_model_state [0] 0 5
    (by decide) (by decide) (by decide)

/-! ## Theorems about the actuation dispatcher -/

/-- Helper: a network node write with a nonzero node id and an in-budget
duration succeeds, emits exactly its send event, and leaves the Modbus
slave id and the GPIO initialization flag unchanged. -/
theorem write_opcua_ok (st : ActuatorState) (node_id : Nat) (value : ℚ)
    (t_start t_end : Nat) (hn : node_id ≠ 0)
    (ht : usub t_end t_start ≤ 10) :
    actuator_write_opcua st node_id value t_start t_end =
      (EDGEPLUG_OK, (actuator_write_opcua st node_id value t_start t_end).2.1,
       [ActEvent.opcua_send node_id value]) ∧
    (actuator_write_opcua st node_id value t_start t_end).2.1.modbus_slave_id =
      st.modbus_slave_id ∧
    (actuator_write_opcua st node_id value t_start t_end).2.1.gpio_initialized =
      st.gpio_initialized := by
  unfold actuator_write_opcua actuator_epilogue
  rw [if_neg hn]
  dsimp only
  rw [if_neg (Nat.not_lt.mpr ht)]
  exact ⟨rfl, rfl, rfl⟩

/-- Helper: a serial register write with a nonzero address and an
in-budget duration succeeds, emits exactly its frame, and leaves the
GPIO initialization flag unchanged. -/
theorem write_modbus_ok (st : ActuatorState) (address value : Nat)
    (t_start t_end : Nat) (ha : address ≠ 0)
    (ht : usub t_end t_start ≤ 10) :
    actuator_write_modbus st address value t_start t_end =
      (EDGEPLUG_OK, (actuator_write_modbus st address value t_start t_end).2.1,
       [ActEvent.modbus_send (modbus_frame st.modbus_slave_id address value)]) ∧
    (actuator_write_modbus st address value t_start t_end).2.1.gpio_initialized =
      st.gpio_initialized := by
  unfold actuator_write_modbus actuator_epilogue
  rw [if_neg ha]
  dsimp only
  rw [if_neg (Nat.not_lt.mpr ht)]
  exact ⟨rfl, rfl⟩

/-- Helper: a discrete line write with a pin below the table bound, a
binary state, an initialized GPIO layer and an in-budget duration
succeeds and emits exactly its event. -/
theorem write_gpio_ok (st : ActuatorState) (pin state : Nat)
    (t_start t_end : Nat) (hp : pin < MAX_GPIO_PINS) (hs : state ≤ 1)
    (hi : st.gpio_initialized = true)
    (ht : usub t_end t_start ≤ 10) :
    actuator_write_gpio st pin state t_start t_end =
      (EDGEPLUG_OK, (actuator_write_gpio st pin state t_start t_end).2.1,
       [ActEvent.gpio_write pin state]) := by
  unfold actuator_write_gpio actuator_epilogue
  rw [if_neg (by
    rintro (h | h)
    · exact absurd hp (Nat.not_lt.mpr h)
    · exact absurd hs (Nat.not_le.mpr h))]
  rw [if_neg (by rw [hi]; exact fun hc => hc rfl)]
  dsimp only
  rw [if_neg (Nat.not_lt.mpr ht)]

/-- A command addressing nothing by the specification's reading: all
three target identifiers are zero. -/
def all_zero_targets_cmd : edgeplug_actuation_cmd_t := ⟨0, 0, 0, 1, 0⟩

/-- Claim C4, counterexample: the claim says each sub-operation runs
exactly when its target identifier is nonzero, so a command with
`gpio_pin = 0` performs no discrete line write; but the dispatcher
guards the GPIO write with `gpio_pin < MAX_GPIO_PINS`, not
`gpio_pin != 0`, so this command (all identifiers zero) performs a
discrete write on pin 0. -/
theorem gpio_pin_zero_still_written :
    all_zero_targets_cmd.gpio_pin = 0 ∧
    (actuator_execute_command actuator_initial all_zero_targets_cmd
        (0, 0) (0, 0) (0, 0)).2.2 = [ActEvent.gpio_write 0 1] := by
  decide

/-- Claim C4, amended: under an initialized GPIO layer, a binary
`gpio_state` and in-budget sub-operation durations, the dispatcher
performs the network node write iff `opcua_node` is nonzero and the
serial register write iff `modbus_addr` is nonzero, but the discrete
line write iff `gpio_pin < 8` — in particular `gpio_pin = 0` does
perform a discrete write. -/
theorem execute_command_performed_sub_ops (st : ActuatorState)
    (cmd : edgeplug_actuation_cmd_t) (t1 t2 t3 : Nat × Nat)
    (hi : st.gpio_initialized = true) (hs : cmd.gpio_state ≤ 1)
    (h1 : usub t1.2 t1.1 ≤ 10) (h2 : usub t2.2 t2.1 ≤ 10)
    (h3 : usub t3.2 t3.1 ≤ 10) :
    (actuator_execute_command st cmd t1 t2 t3).2.2 =
      (if cmd.opcua_node ≠ 0 then
         [ActEvent.opcua_send cmd.opcua_node cmd.value] else []) ++
      (if cmd.modbus_addr ≠ 0 then
         [ActEvent.modbus_send
           (modbus_frame st.modbus_slave_id cmd.modbus_addr (f32_to_u16 cmd.value))]
       else []) ++
      (if cmd.gpio_pin < MAX_GPIO_PINS then
         [ActEvent.gpio_write cmd.gpio_pin cmd.gpio_state] else []) := by
  have hstep1 : ∃ st1 : ActuatorState,
      (if cmd.opcua_node ≠ 0 then
         actuator_write_opcua st cmd.opcua_node cmd.value t1.1 t1.2
       else (EDGEPLUG_OK, st, [])) =
        (EDGEPLUG_OK, st1,
         if cmd.opcua_node ≠ 0 then
           [ActEvent.opcua_send cmd.opcua_node cmd.value] else []) ∧
      st1.modbus_slave_id = st.modbus_slave_id ∧
      st1.gpio_initialized = st.gpio_initialized := by
    by_cases hn : cmd.opcua_node ≠ 0
    · obtain ⟨ho1, ho2, ho3⟩ := write_opcua_ok st cmd.opcua_node cmd.value t1.1 t1.2 hn h1
      exact ⟨(actuator_write_opcua st cmd.opcua_node cmd.value t1.1 t1.2).2.1,
        by rw [if_pos hn, if_pos hn, ho1], ho2, ho3⟩
    · exact ⟨st, by rw [if_neg hn, if_neg hn], rfl, rfl⟩
  obtain ⟨st1, he1, hm1, hg1⟩ := hstep1
  have hstep2 : ∃ st2 : ActuatorState,
      (if cmd.modbus_addr ≠ 0 then
         actuator_write_modbus st1 cmd.modbus_addr (f32_to_u16 cmd.value) t2.1 t2.2
       else (EDGEPLUG_OK, st1, [])) =
        (EDGEPLUG_OK, st2,
         if cmd.modbus_addr ≠ 0 then
           [ActEvent.modbus_send
             (modbus_frame st.modbus_slave_id cmd.modbus_addr (f32_to_u16 cmd.value))]
         else []) ∧
      st2.gpio_initialized = st.gpio_initialized := by
    by_cases hm : cmd.modbus_addr ≠ 0
    · obtain ⟨hb1, hb2⟩ :=
        write_modbus_ok st1 cmd.modbus_addr (f32_to_u16 cmd.value) t2.1 t2.2 hm h2
      refine ⟨(actuator_write_modbus st1 cmd.modbus_addr (f32_to_u16 cmd.value) t2.1 t2.2).2.1,
        ?_, by rw [hb2, hg1]⟩
      rw [if_pos hm, if_pos hm, hb1, hm1]
    · exact ⟨st1, by rw [if_neg hm, if_neg hm], hg1⟩
  obtain ⟨st2, he2, hg2⟩ := hstep2
  have hstep3 : (if cmd.gpio_pin < MAX_GPIO_PINS then
         actuator_write_gpio st2 cmd.gpio_pin cmd.gpio_state t3.1 t3.2
       else (EDGEPLUG_OK, st2, [])) =
        (EDGEPLUG_OK,
         (if cmd.gpio_pin < MAX_GPIO_PINS then
            (actuator_write_gpio st2 cmd.gpio_pin cmd.gpio_state t3.1 t3.2).2.1
          else st2),
         if cmd.gpio_pin < MAX_GPIO_PINS then
           [ActEvent.gpio_write cmd.gpio_pin cmd.gpio_state] else []) := by
    by_cases hp : cmd.gpio_pin < MAX_GPIO_PINS
    · rw [if_pos hp, if_pos hp, if_pos hp,
        write_gpio_ok st2 cmd.gpio_pin cmd.gpio_state t3.1 t3.2 hp hs
          (by rw [hg2, hi]) h3]
    · rw [if_neg hp, if_neg hp, if_neg hp]
  unfold actuator_execute_command
  dsimp only
  rw [he1]
  dsimp only
  rw [if_neg (by decide : ¬ (EDGEPLUG_OK ≠ EDGEPLUG_OK))]
  rw [he2]
  dsimp only
  rw [if_neg (by decide : ¬ (EDGEPLUG_OK ≠ EDGEPLUG_OK))]
  rw [hstep3]
  dsimp only
  rw [if_neg (by decide : ¬ (EDGEPLUG_OK ≠ EDGEPLUG_OK))]

/-- Claim C4, amended, witness: a command addressing all three
transports (node 5, register 7, pin 3 high) performs all three writes
in order. -/
theorem execute_command_performed_sub_ops_witness :
    (actuator_execute_command actuator_initial ⟨5, 7, 3, 1, 0⟩
        (0, 0) (0, 0) (0, 0)).2.2 =
      [ActEvent.opcua_send 5 0,
       ActEvent.modbus_send (modbus_frame 1 7 (f32_to_u16 0)),
       ActEvent.gpio_write 3 1] := by
  have h := execute_command_performed_sub_ops actuator_initial ⟨5, 7, 3, 1, 0⟩
    (0, 0) (0, 0) (0, 0) (by decide) (by decide) (by decide) (by decide) (by decide)
  simpa using h

end EdgePlug
